import Mathlib

/-!
Shallow embedding of the f1-race-predictor data-acquisition subsystem
(`f1_predictor/cache.py` and `f1_predictor/data_fetcher.py`) and proofs of
the specification's claims about it.

Modelling conventions:
* JSON values are the inductive `Json`; JSON numbers are modelled as `Int`
  (every numeric literal the provider sends in the claims' scope is integral)
  except where Python applies `float()`, which is modelled as `Rat`.
* Python exceptions are the inductive `PyExn`; `try/except` blocks become
  explicit matches on `Except PyExn`.
* Wall-clock instants (`datetime.now()`) are modelled as `Int` and an ISO
  timestamp string produced by `datetime.isoformat` is modelled as the
  `Json.num` holding that instant; a `Json.str` in a timestamp position
  models an unparseable timestamp (`fromisoformat` raises `ValueError`),
  any other shape models `fromisoformat`'s `TypeError`.
* The filesystem backing the cache is an association list from file name to
  `FileContent`; `FileContent.corrupt` models content that `open`/`json.load`
  fails on (unreadable or undecodable), `FileContent.json` decodable content.
* The network is a transcript: attempt `i` of the retry loop observes entry
  `i` of a list of `HttpResponse`.
-/

namespace F1

/-- JSON value, as decoded by `json.load` / `response.json()`. -/
inductive Json where
  | null
  | bool (b : Bool)
  | num (n : Int)
  | str (s : String)
  | arr (elems : List Json)
  | obj (fields : List (String × Json))

mutual

/-- Structural equality of JSON values, modelling Python `==` on decoded
values of matching shapes. -/
def jsonBeq : Json → Json → Bool
  | .null, .null => true
  | .bool a, .bool b => a == b
  | .num a, .num b => a == b
  | .str a, .str b => a == b
  | .arr a, .arr b => jsonBeqL a b
  | .obj a, .obj b => jsonBeqF a b
  | _, _ => false

/-- Elementwise `jsonBeq` on lists. -/
def jsonBeqL : List Json → List Json → Bool
  | [], [] => true
  | x :: xs, y :: ys => jsonBeq x y && jsonBeqL xs ys
  | _, _ => false

/-- Entrywise `jsonBeq` on dict field lists. -/
def jsonBeqF : List (String × Json) → List (String × Json) → Bool
  | [], [] => true
  | (k1, v1) :: xs, (k2, v2) :: ys => k1 == k2 && jsonBeq v1 v2 && jsonBeqF xs ys
  | _, _ => false

end

/-- Python exception, tagged by the class the source code dispatches on. -/
inductive PyExn where
  | valueError (msg : String)
  | typeError (msg : String)
  | keyError (msg : String)
  | indexError (msg : String)
  | attributeError (msg : String)
  | timeout
  | httpError (status : Nat)
  | requestException (msg : String)
deriving DecidableEq

/-- True for the exception classes that are subclasses of
`requests.RequestException` (`Timeout`, `HTTPError`, and the base class). -/
def isRequestException : PyExn → Bool
  | .timeout => true
  | .httpError _ => true
  | .requestException _ => true
  | _ => false

/-- The exception classes caught by the per-element handlers
`except (KeyError, ValueError, TypeError)` in the collection loops. -/
def caughtKVT : PyExn → Bool
  | .keyError _ => true
  | .valueError _ => true
  | .typeError _ => true
  | _ => false

/-- The classes caught by `except (KeyError, TypeError)` (season results,
qualifying, circuit history outer handlers). -/
def caughtKT : PyExn → Bool
  | .keyError _ => true
  | .typeError _ => true
  | _ => false

/-- The classes caught by `except (KeyError, IndexError, TypeError)`
(next race, driver/constructor standings outer handlers). -/
def caughtKIT : PyExn → Bool
  | .keyError _ => true
  | .indexError _ => true
  | .typeError _ => true
  | _ => false

/-- Substring test, modelling Python `sub in s` on strings. -/
def strHasSub (s sub : String) : Bool :=
  decide (2 ≤ (s.splitOn sub).length)

/-- Python `key in j` on a decoded JSON value: key membership for a dict,
element membership for a list, substring test for a string, `TypeError`
("argument of type ... is not iterable") for the scalar types. -/
def pyIn (key : String) (j : Json) : Except PyExn Bool :=
  match j with
  | .obj fields => .ok (fields.any fun kv => kv.1 == key)
  | .arr elems => .ok (elems.any fun x => jsonBeq x (Json.str key))
  | .str s => .ok (strHasSub s key)
  | _ => .error (.typeError "argument is not iterable")

/-- Python `j[key]` with a string key: dict lookup (`KeyError` if absent),
`TypeError` for every non-dict value. -/
def pySubscript (j : Json) (key : String) : Except PyExn Json :=
  match j with
  | .obj fields =>
    match fields.find? (fun kv => kv.1 == key) with
    | some kv => .ok kv.2
    | none => .error (.keyError key)
  | _ => .error (.typeError "indices must be integers")

/-- Python `j.get(key, dflt)`: defined for dicts only; every other value
raises `AttributeError` (no `get` attribute). -/
def pyDictGet (j : Json) (key : String) (dflt : Json) : Except PyExn Json :=
  match j with
  | .obj fields =>
    match fields.find? (fun kv => kv.1 == key) with
    | some kv => .ok kv.2
    | none => .ok dflt
  | _ => .error (.attributeError "get")

/-- Python `j.get(key)` with the implicit `None` default, used for the
optional qualifying session times. -/
def pyDictGetOpt (j : Json) (key : String) : Except PyExn (Option Json) :=
  match j with
  | .obj fields =>
    match fields.find? (fun kv => kv.1 == key) with
    | some kv => .ok (some kv.2)
    | none => .ok none
  | _ => .error (.attributeError "get")

/-- Python truthiness of a decoded JSON value. -/
def pyTruthy : Json → Bool
  | .null => false
  | .bool b => b
  | .num n => n != 0
  | .str s => s != ""
  | .arr elems => !elems.isEmpty
  | .obj fields => !fields.isEmpty

/-- Python `j[0]`: first element of a list (`IndexError` when empty), first
character of a string, `KeyError` for a dict (0 is not a key the provider
uses), `TypeError` otherwise. -/
def pyIndex0 (j : Json) : Except PyExn Json :=
  match j with
  | .arr (x :: _) => .ok x
  | .arr [] => .error (.indexError "list index out of range")
  | .str s =>
    match s.toList with
    | c :: _ => .ok (.str (String.mk [c]))
    | [] => .error (.indexError "string index out of range")
  | .obj _ => .error (.keyError "0")
  | _ => .error (.typeError "not subscriptable")

/-- Python `for x in j`: the elements of a list, the keys of a dict, the
characters of a string, `TypeError` otherwise. -/
def pyIter (j : Json) : Except PyExn (List Json) :=
  match j with
  | .arr elems => .ok elems
  | .obj fields => .ok (fields.map fun kv => Json.str kv.1)
  | .str s => .ok (s.toList.map fun c => Json.str (String.mk [c]))
  | _ => .error (.typeError "object is not iterable")

/-- Decimal digits to a natural number. -/
def digitsToNat (cs : List Char) : Nat :=
  cs.foldl (fun acc c => acc * 10 + (c.toNat - 48)) 0

/-- Decimal-string parse for Python `int(s)`: optional sign followed by
digits (the exotic forms `int` also accepts — embedded underscores,
surrounding whitespace — are outside the provider's value format and not
modelled). -/
def pyIntStr (s : String) : Option Int :=
  let core := fun (cs : List Char) =>
    if cs ≠ [] ∧ cs.all Char.isDigit then some (digitsToNat cs) else none
  match s.toList with
  | '-' :: rest => (core rest).map fun n => -(n : Int)
  | '+' :: rest => (core rest).map fun n => (n : Int)
  | cs => (core cs).map fun n => (n : Int)

/-- Python `int(x)` on a decoded JSON value: identity on numbers, decimal
string parse (`ValueError` on failure), 0/1 on booleans, `TypeError` on the
container types and `None`. -/
def pyInt (j : Json) : Except PyExn Int :=
  match j with
  | .num n => .ok n
  | .bool b => .ok (if b then 1 else 0)
  | .str s =>
    match pyIntStr s with
    | some n => .ok n
    | none => .error (.valueError "invalid literal for int")
  | _ => .error (.typeError "int argument must be a string or a number")

/-- Split a character list at its first dot. -/
def splitAtDot : List Char → List Char × Option (List Char)
  | [] => ([], none)
  | c :: rest =>
    if c = '.' then ([], some rest)
    else
      let (a, b) := splitAtDot rest
      (c :: a, b)

/-- Decimal-string parse for Python `float(s)`: optional sign, digits, an
optional fractional part (scientific notation and the named special values
are outside the provider's value format and not modelled). Returns the
exact rational value. -/
def parseFloatStr (s : String) : Option Rat :=
  let core := fun (cs : List Char) =>
    match splitAtDot cs with
    | (a, none) =>
      if a ≠ [] ∧ a.all Char.isDigit then some ((digitsToNat a : Nat) : Rat)
      else none
    | (a, some b) =>
      if (a ≠ [] ∨ b ≠ []) ∧ a.all Char.isDigit ∧ b.all Char.isDigit then
        some (((digitsToNat a : Nat) : Rat) +
          ((digitsToNat b : Nat) : Rat) / ((10 : Rat) ^ b.length))
      else none
  match s.toList with
  | '-' :: rest => (core rest).map fun q => -q
  | '+' :: rest => core rest
  | cs => core cs

/-- Python `float(x)` on a decoded JSON value. -/
def pyFloat (j : Json) : Except PyExn Rat :=
  match j with
  | .num n => .ok (n : Rat)
  | .bool b => .ok (if b then 1 else 0)
  | .str s =>
    match parseFloatStr s with
    | some q => .ok q
    | none => .error (.valueError "could not convert string to float")
  | _ => .error (.typeError "float argument must be a string or a number")

/-- Python `str` interpolation `f"{x}"` of a decoded JSON value. The reprs of
containers are abstracted (never a valid ISO date, which is all the source
does with the result). -/
def pyFormat : Json → String
  | .str s => s
  | .num n => toString n
  | .bool b => if b then "True" else "False"
  | .null => "None"
  | .arr _ => "[list repr]"
  | .obj _ => "dict repr"

/-- Python `s.rstrip('Z')` on a value that must be a string; every other
value raises `AttributeError` (no `rstrip` attribute). -/
def pyRstripZ (j : Json) : Except PyExn String :=
  match j with
  | .str s => .ok (String.mk ((s.toList.reverse.dropWhile fun c => c = 'Z').reverse))
  | _ => .error (.attributeError "rstrip")

/-! ## Cache Store (`cache.py`, class `DataCache`) -/

/-- Persisted content of one cache file. `corrupt` models content the read
path cannot use: an unreadable file (`OSError` from `open`) or undecodable
bytes (`json.JSONDecodeError` from `json.load`) — both land in the same
`except` clause of `DataCache.get`. `json` models successfully decoded
content. -/
inductive FileContent where
  | corrupt (raw : String)
  | json (entry : Json)

/-- Cache directory contents: file name to content. Writes shadow: the most
recent entry for a name is the visible one. -/
abbrev FileStore := List (String × FileContent)

/-- Visible content of file `p`, if it exists. -/
def lookupFile : FileStore → String → Option FileContent
  | [], _ => none
  | (q, c) :: rest, p => if q = p then some c else lookupFile rest p

/-- Remove file `p` (models `cache_path.unlink()`). -/
def deleteFile : FileStore → String → FileStore
  | [], _ => []
  | (q, c) :: rest, p => if q = p then deleteFile rest p else (q, c) :: deleteFile rest p

/-- Write file `p` with content `c`, replacing any prior content. -/
def writeFile (fs : FileStore) (p : String) (c : FileContent) : FileStore :=
  (p, c) :: fs

/-- The sanitization in `DataCache._get_cache_path`:
`key.replace('/', '_').replace(':', '_')`. Both `str.replace` calls have a
one-character pattern, so each is a character map over the key. -/
def sanitizeKey (key : List Char) : List Char :=
  (key.map fun c => if c = '/' then '_' else c).map fun c => if c = ':' then '_' else c

/-- `DataCache._get_cache_path`: the cache file name for a key (the constant
directory portion of the `Path` is dropped from the model). -/
def getCachePath (key : String) : String :=
  String.mk (sanitizeKey key.toList) ++ ".json"

/-- Parse a stored `expires_at` value, modelling
`datetime.fromisoformat(cache_entry['expires_at'])` under the timestamp
convention in the file header: a `num` is a well-formed timestamp, a `str`
an unparseable one (`ValueError`), anything else a non-string argument
(`TypeError`). -/
def fromIsoTimestamp (j : Json) : Except PyExn Int :=
  match j with
  | .num n => .ok n
  | .str _ => .error (.valueError "Invalid isoformat string")
  | _ => .error (.typeError "fromisoformat: argument must be str")

/-- The `try` body of `DataCache.get` after `json.load` succeeded
(`cache.py` lines 74-85): structure validation, TTL check, payload read. -/
def cacheGetBody (entry : Json) (now : Int) (ignoreTtl : Bool) :
    Except PyExn (Option Json) := do
  let hasData ← pyIn "data" entry
  if !hasData then
    return none
  let hasExpires ← pyIn "expires_at" entry
  if !hasExpires then
    return none
  if !ignoreTtl then
    let expiresJ ← pySubscript entry "expires_at"
    let expiresAt ← fromIsoTimestamp expiresJ
    if expiresAt < now then
      return none
  let d ← pySubscript entry "data"
  return some d

/-- `DataCache.get(key, ignore_ttl)`. Returns the Python result (or the
exception that propagates) together with the file store after any
corruption-cleanup side effect. The `except (json.JSONDecodeError,
ValueError, OSError)` clause corresponds to a `corrupt` file or a
`valueError` escaping the body (`JSONDecodeError` is a `ValueError`
subclass); it deletes the file and returns `None`. -/
def cacheGet (fs : FileStore) (now : Int) (key : String) (ignoreTtl : Bool) :
    Except PyExn (Option Json) × FileStore :=
  let path := getCachePath key
  match lookupFile fs path with
  | none => (.ok none, fs)
  | some (.corrupt _) => (.ok none, deleteFile fs path)
  | some (.json entry) =>
    match cacheGetBody entry now ignoreTtl with
    | .ok v => (.ok v, fs)
    | .error (.valueError _) => (.ok none, deleteFile fs path)
    | .error e => (.error e, fs)

/-- The JSON object `DataCache.set` persists:
`{data, cached_at, expires_at, ttl}`. -/
def cacheEntry (data : Json) (cachedAt expiresAt ttl : Int) : Json :=
  .obj [("data", data), ("cached_at", .num cachedAt),
    ("expires_at", .num expiresAt), ("ttl", .num ttl)]

/-- `DataCache.set(key, data, ttl)`: persists
`{data, cached_at: now, expires_at: now + ttl, ttl}` wholesale (write
failures, which the source logs and swallows, are not injected by the
model). -/
def cacheSet (fs : FileStore) (now : Int) (key : String) (data : Json)
    (ttl : Int) : FileStore :=
  writeFile fs (getCachePath key) (.json (cacheEntry data now (now + ttl) ttl))

/-! ## HTTP Request Executor (`data_fetcher.py`, `F1DataFetcher._make_request`) -/

/-- What the network returns for one attempt: a timeout, a connection-level
failure (`requests.RequestException` from `requests.get` itself), or a
response with a status code and a body (`none` when the body is not
decodable JSON, making `response.json()` raise). -/
inductive HttpResponse where
  | timeout
  | connError
  | response (status : Nat) (body : Option Json)

/-- `F1DataFetcher.MAX_RETRIES`. -/
def MAX_RETRIES : Nat := 3

/-- Result of `_make_request` on a transcript: the returned body or raised
exception, the number of HTTP attempts performed, and the backoff sleeps in
order. -/
structure ReqOutcome where
  result : Except PyExn Json
  attempts : Nat
  sleeps : List Nat

/-- One iteration of the `try` body of `_make_request` (lines 88-107):
`raise_for_status`, then JSON decoding and envelope validation, with the
inner `except ValueError` re-raising as `requests.RequestException`. -/
def attemptStep (r : HttpResponse) : Except PyExn Json :=
  match r with
  | .timeout => .error .timeout
  | .connError => .error (.requestException "connection error")
  | .response status body =>
    if 400 ≤ status ∧ status < 600 then .error (.httpError status)
    else
      match body with
      | none => .error (.requestException "Invalid API response format: not JSON")
      | some j =>
        match j with
        | .obj fields =>
          if fields.any (fun kv => kv.1 == "MRData") then .ok j
          else .error (.requestException
            "Invalid API response format: API response missing MRData field")
        | _ => .error (.requestException
            "Invalid API response format: API response is not a valid JSON object")

/-- The response observed by attempt number `i` (the network always answers
something; the transcript default is a connection error). -/
def attemptAt (rs : List HttpResponse) (i : Nat) : HttpResponse :=
  rs.getD i HttpResponse.connError

/-- The `while retry_count < MAX_RETRIES` loop of `_make_request`, with
`fuel = MAX_RETRIES - retry_count`. The 4xx branch re-raises immediately;
every other failure stores the exception, increments `retry_count`, and
sleeps `2 ** retry_count` when budget remains. -/
def makeRequestLoop (rs : List HttpResponse) :
    Nat → Nat → Option PyExn → List Nat → ReqOutcome
  | 0, retryCount, lastExc, sleeps =>
    ⟨.error (lastExc.getD (.typeError "exceptions must derive from BaseException")),
      retryCount, sleeps⟩
  | fuel + 1, retryCount, lastExc, sleeps =>
    match attemptStep (attemptAt rs retryCount) with
    | .ok j => ⟨.ok j, retryCount + 1, sleeps⟩
    | .error e =>
      match e with
      | .httpError status =>
        if 400 ≤ status ∧ status < 500 then ⟨.error e, retryCount + 1, sleeps⟩
        else
          makeRequestLoop rs fuel (retryCount + 1) (some e)
            (sleeps ++ if retryCount + 1 < MAX_RETRIES then [2 ^ (retryCount + 1)] else [])
      | _ =>
        makeRequestLoop rs fuel (retryCount + 1) (some e)
          (sleeps ++ if retryCount + 1 < MAX_RETRIES then [2 ^ (retryCount + 1)] else [])

/-- `F1DataFetcher._make_request` over a transcript of network answers. -/
def makeRequest (rs : List HttpResponse) : ReqOutcome :=
  makeRequestLoop rs MAX_RETRIES 0 none []

/-! ## Domain records (`models.py`)

The dataclasses carry type annotations but no validation, so a field that
the source assigns straight from decoded JSON is modelled as `Json`; fields
the source passes through `int()` / `float()` / `datetime.fromisoformat`
are modelled with the converted type. -/

/-- A parsed `YYYY-MM-DDTHH:MM:SS` instant (`datetime.fromisoformat`). -/
structure PyDateTime where
  year : Nat
  month : Nat
  day : Nat
  hour : Nat
  minute : Nat
  second : Nat

/-- `models.Circuit`. -/
structure Circuit where
  circuit_id : Json
  circuit_name : Json
  location : Json
  country : Json

/-- `models.Driver`. -/
structure Driver where
  driver_id : Json
  code : Json
  forename : Json
  surname : Json
  nationality : Json

/-- `models.Constructor`. -/
structure Constructor where
  constructor_id : Json
  name : Json
  nationality : Json

/-- `models.Race`. -/
structure Race where
  season : Int
  round : Int
  race_name : Json
  circuit : Circuit
  date : PyDateTime

/-- `models.RaceResult`. -/
structure RaceResult where
  race : Race
  driver : Driver
  constructor : Constructor
  position : Int
  points : Rat
  grid : Int
  laps : Int
  status : Json

/-- `models.QualifyingResult`. -/
structure QualifyingResult where
  race : Race
  driver : Driver
  constructor : Constructor
  position : Int
  q1_time : Option Json
  q2_time : Option Json
  q3_time : Option Json

/-- `models.DriverStanding`. -/
structure DriverStanding where
  driver : Driver
  constructor : Constructor
  position : Int
  points : Rat
  wins : Int

/-- `models.ConstructorStanding`. -/
structure ConstructorStanding where
  constructor : Constructor
  position : Int
  points : Rat
  wins : Int

/-! ## Response Parsers (`data_fetcher.py`, `_parse_*` helpers) -/

/-- The `for field in required_fields: if field not in data: raise
ValueError(...)` pattern shared by every parser. -/
def checkRequired (what : String) (fields : List String) (j : Json) :
    Except PyExn Unit :=
  match fields with
  | [] => .ok ()
  | f :: rest => do
    let present ← pyIn f j
    if present then checkRequired what rest j
    else .error (.valueError (what ++ " missing required field: " ++ f))

/-- Wrap a construction body's `ValueError`/`TypeError` into the parser's
own `ValueError`, modelling `except (ValueError, TypeError) as e: raise
ValueError(f"Invalid ... data types: ...")`. -/
def wrapCoercion (what : String) (r : Except PyExn α) : Except PyExn α :=
  match r with
  | .ok x => .ok x
  | .error (.valueError _) => .error (.valueError ("Invalid " ++ what ++ " data types"))
  | .error (.typeError _) => .error (.valueError ("Invalid " ++ what ++ " data types"))
  | .error e => .error e

/-- Four-digit-prefix parse helper for ISO dates. -/
def fourDigits : List Char → Option (Nat × List Char)
  | a :: b :: c :: d :: rest =>
    if a.isDigit ∧ b.isDigit ∧ c.isDigit ∧ d.isDigit then
      some (((a.toNat - 48) * 10 + (b.toNat - 48)) * 100 +
        (c.toNat - 48) * 10 + (d.toNat - 48), rest)
    else none
  | _ => none

/-- Two-digit-prefix parse helper for ISO dates. -/
def twoDigits : List Char → Option (Nat × List Char)
  | a :: b :: rest =>
    if a.isDigit ∧ b.isDigit then some ((a.toNat - 48) * 10 + (b.toNat - 48), rest)
    else none
  | _ => none

/-- Consume one expected character. -/
def expectChar (c : Char) : List Char → Option (List Char)
  | x :: rest => if x = c then some rest else none
  | [] => none

/-- `datetime.fromisoformat` on the canonical `YYYY-MM-DDTHH:MM:SS` shape
the fetcher builds (`f"{date_str}T{time_str.rstrip('Z')}"`); any other
shape fails, modelling the `ValueError` the source wraps. -/
def fromIsoDatetime (s : String) : Option PyDateTime := do
  let (y, r1) ← fourDigits s.toList
  let r2 ← expectChar '-' r1
  let (mo, r3) ← twoDigits r2
  let r4 ← expectChar '-' r3
  let (d, r5) ← twoDigits r4
  let r6 ← expectChar 'T' r5
  let (h, r7) ← twoDigits r6
  let r8 ← expectChar ':' r7
  let (mi, r9) ← twoDigits r8
  let r10 ← expectChar ':' r9
  let (se, r11) ← twoDigits r10
  if r11 = [] ∧ 1 ≤ mo ∧ mo ≤ 12 ∧ 1 ≤ d ∧ d ≤ 31 ∧ h ≤ 23 ∧ mi ≤ 59 ∧ se ≤ 59 then
    some ⟨y, mo, d, h, mi, se⟩
  else none

/-- `F1DataFetcher._parse_circuit`. -/
def parseCircuit (circuitData : Json) : Except PyExn Circuit := do
  checkRequired "Circuit data" ["circuitId", "circuitName", "Location"] circuitData
  let location ← pySubscript circuitData "Location"
  let hasLocality ← pyIn "locality" location
  if !hasLocality then
    throw (.valueError "Circuit location data incomplete")
  let hasCountry ← pyIn "country" location
  if !hasCountry then
    throw (.valueError "Circuit location data incomplete")
  let circuitId ← pySubscript circuitData "circuitId"
  let circuitName ← pySubscript circuitData "circuitName"
  let locality ← pySubscript location "locality"
  let country ← pySubscript location "country"
  return ⟨circuitId, circuitName, locality, country⟩

/-- `F1DataFetcher._parse_driver`. The `code` field is optional:
`driver_data.get('code', '???')`. -/
def parseDriver (driverData : Json) : Except PyExn Driver := do
  checkRequired "Driver data" ["driverId", "givenName", "familyName", "nationality"]
    driverData
  let driverId ← pySubscript driverData "driverId"
  let code ← pyDictGet driverData "code" (.str "???")
  let forename ← pySubscript driverData "givenName"
  let surname ← pySubscript driverData "familyName"
  let nationality ← pySubscript driverData "nationality"
  return ⟨driverId, code, forename, surname, nationality⟩

/-- `F1DataFetcher._parse_constructor`. -/
def parseConstructor (constructorData : Json) : Except PyExn Constructor := do
  checkRequired "Constructor data" ["constructorId", "name", "nationality"]
    constructorData
  let constructorId ← pySubscript constructorData "constructorId"
  let name ← pySubscript constructorData "name"
  let nationality ← pySubscript constructorData "nationality"
  return ⟨constructorId, name, nationality⟩

/-- The date/time block of `_parse_race` (lines 586-592): build
`f"{date_str}T{time_str.rstrip('Z')}"` and parse it; parse failures are the
wrapped `ValueError("Invalid race date/time format")`, while a non-string
`time` raises `AttributeError` from `.rstrip`, which the source's
`except (ValueError, TypeError)` does not catch. -/
def parseRaceDate (raceData : Json) : Except PyExn PyDateTime := do
  let dateJ ← pySubscript raceData "date"
  let timeJ ← pyDictGet raceData "time" (.str "00:00:00Z")
  let timeStr ← pyRstripZ timeJ
  let dtStr := pyFormat dateJ ++ "T" ++ timeStr
  match fromIsoDatetime dtStr with
  | some dt => return dt
  | none => throw (.valueError "Invalid race date/time format")

/-- `F1DataFetcher._parse_race`. -/
def parseRace (raceData : Json) : Except PyExn Race := do
  checkRequired "Race data" ["season", "round", "raceName", "Circuit", "date"]
    raceData
  let raceDate ← parseRaceDate raceData
  let season ← pyInt (← pySubscript raceData "season")
  let round ← pyInt (← pySubscript raceData "round")
  let raceName ← pySubscript raceData "raceName"
  let circuit ← parseCircuit (← pySubscript raceData "Circuit")
  return ⟨season, round, raceName, circuit, raceDate⟩

/-- The `RaceResult(...)` construction body of `_parse_race_result`. -/
def raceResultBody (race : Race) (resultData : Json) : Except PyExn RaceResult := do
  let driver ← parseDriver (← pySubscript resultData "Driver")
  let constructor ← parseConstructor (← pySubscript resultData "Constructor")
  let position ← pyInt (← pySubscript resultData "position")
  let points ← pyFloat (← pySubscript resultData "points")
  let grid ← pyInt (← pySubscript resultData "grid")
  let laps ← pyInt (← pySubscript resultData "laps")
  let status ← pySubscript resultData "status"
  return ⟨race, driver, constructor, position, points, grid, laps, status⟩

/-- `F1DataFetcher._parse_race_result`. -/
def parseRaceResult (race : Race) (resultData : Json) : Except PyExn RaceResult := do
  checkRequired "Race result data"
    ["Driver", "Constructor", "position", "points", "grid", "laps", "status"]
    resultData
  wrapCoercion "race result" (raceResultBody race resultData)

/-- The `QualifyingResult(...)` construction body of
`_parse_qualifying_result`. -/
def qualifyingResultBody (race : Race) (qualData : Json) :
    Except PyExn QualifyingResult := do
  let driver ← parseDriver (← pySubscript qualData "Driver")
  let constructor ← parseConstructor (← pySubscript qualData "Constructor")
  let position ← pyInt (← pySubscript qualData "position")
  let q1 ← pyDictGetOpt qualData "Q1"
  let q2 ← pyDictGetOpt qualData "Q2"
  let q3 ← pyDictGetOpt qualData "Q3"
  return ⟨race, driver, constructor, position, q1, q2, q3⟩

/-- `F1DataFetcher._parse_qualifying_result`. -/
def parseQualifyingResult (race : Race) (qualData : Json) :
    Except PyExn QualifyingResult := do
  checkRequired "Qualifying result data" ["Driver", "Constructor", "position"]
    qualData
  wrapCoercion "qualifying result" (qualifyingResultBody race qualData)

/-- The `DriverStanding(...)` construction body of `_parse_driver_standing`. -/
def driverStandingBody (standingData : Json) : Except PyExn DriverStanding := do
  let driver ← parseDriver (← pySubscript standingData "Driver")
  let constructor ← parseConstructor (← pyIndex0 (← pySubscript standingData "Constructors"))
  let position ← pyInt (← pySubscript standingData "position")
  let points ← pyFloat (← pySubscript standingData "points")
  let wins ← pyInt (← pySubscript standingData "wins")
  return ⟨driver, constructor, position, points, wins⟩

/-- `F1DataFetcher._parse_driver_standing`. -/
def parseDriverStanding (standingData : Json) : Except PyExn DriverStanding := do
  checkRequired "Driver standing data"
    ["Driver", "Constructors", "position", "points", "wins"] standingData
  let constructors ← pySubscript standingData "Constructors"
  if !pyTruthy constructors then
    throw (.valueError "Driver standing missing constructor information")
  wrapCoercion "driver standing" (driverStandingBody standingData)

/-- The `ConstructorStanding(...)` construction body of
`_parse_constructor_standing`. -/
def constructorStandingBody (standingData : Json) :
    Except PyExn ConstructorStanding := do
  let constructor ← parseConstructor (← pySubscript standingData "Constructor")
  let position ← pyInt (← pySubscript standingData "position")
  let points ← pyFloat (← pySubscript standingData "points")
  let wins ← pyInt (← pySubscript standingData "wins")
  return ⟨constructor, position, points, wins⟩

/-- `F1DataFetcher._parse_constructor_standing`. -/
def parseConstructorStanding (standingData : Json) :
    Except PyExn ConstructorStanding := do
  checkRequired "Constructor standing data"
    ["Constructor", "position", "points", "wins"] standingData
  wrapCoercion "constructor standing" (constructorStandingBody standingData)

/-! ## Collection parsing (the per-resource response walkers) -/

/-- The per-element loop `for x in elems: try: acc.append(parse(x)) except
(KeyError, ValueError, TypeError): continue`. Returns the accumulated
records and, when an exception of another class escapes, that exception. -/
def collectLoop (parse : Json → Except PyExn α) :
    List Json → List α → List α × Option PyExn
  | [], acc => (acc, none)
  | x :: rest, acc =>
    match parse x with
    | .ok r => collectLoop parse rest (acc ++ [r])
    | .error e =>
      if caughtKVT e then collectLoop parse rest acc else (acc, some e)

/-- Chain a structure-navigation step under an outer `except` clause that
returns the partial result `fallback`: on an exception of a caught class
return `fallback`, on any other exception propagate, on success continue. -/
def structStep (caught : PyExn → Bool) (fallback : List α) (r : Except PyExn β)
    (k : β → Except PyExn (List α)) : Except PyExn (List α) :=
  match r with
  | .ok b => k b
  | .error e => if caught e then .ok fallback else .error e

/-- Finish a collection loop under the outer `except` clause: a caught
escaping exception yields the records accumulated so far. -/
def finishLoop (caught : PyExn → Bool) : List α × Option PyExn →
    Except PyExn (List α)
  | (acc, none) => .ok acc
  | (acc, some e) => if caught e then .ok acc else .error e

/-- One race of the `get_current_season_results` loop (lines 288-300): the
per-race `try` parses the race, then walks `race_data.get('Results', [])`
with the per-result `try`; `except (KeyError, ValueError, TypeError)` on
the race level skips the race, keeping earlier records. -/
def seasonRaceStep (raceData : Json) (acc : List RaceResult) :
    List RaceResult × Option PyExn :=
  match parseRace raceData with
  | .error e => if caughtKVT e then (acc, none) else (acc, some e)
  | .ok race =>
    match pyDictGet raceData "Results" (.arr []) with
    | .error e => if caughtKVT e then (acc, none) else (acc, some e)
    | .ok resultsJ =>
      match pyIter resultsJ with
      | .error e => if caughtKVT e then (acc, none) else (acc, some e)
      | .ok elems =>
        match collectLoop (parseRaceResult race) elems acc with
        | (acc2, none) => (acc2, none)
        | (acc2, some e) => if caughtKVT e then (acc2, none) else (acc2, some e)

/-- The `for race_data in races` loop of `get_current_season_results`. -/
def seasonRacesLoop : List Json → List RaceResult →
    List RaceResult × Option PyExn
  | [], acc => (acc, none)
  | rd :: rest, acc =>
    match seasonRaceStep rd acc with
    | (acc2, none) => seasonRacesLoop rest acc2
    | (acc2, some e) => (acc2, some e)

/-- The parse stage of `get_current_season_results` (lines 278-305): the
whole walk sits under `except (KeyError, TypeError)`, which returns the
partial `results`. -/
def seasonResultsParse (data : Json) : Except PyExn (List RaceResult) :=
  structStep caughtKT [] (pyIn "MRData" data) fun hasMR =>
  if !hasMR then .ok [] else
  structStep caughtKT [] (pySubscript data "MRData") fun mr =>
  structStep caughtKT [] (pyDictGet mr "RaceTable" (.obj [])) fun raceTable =>
  structStep caughtKT [] (pyDictGet raceTable "Races" (.arr [])) fun races =>
  structStep caughtKT [] (pyIter races) fun raceList =>
  finishLoop caughtKT (seasonRacesLoop raceList [])

/-- The parse stage of `get_driver_standings` (lines 330-358), under
`except (KeyError, IndexError, TypeError)`. -/
def driverStandingsParse (data : Json) : Except PyExn (List DriverStanding) :=
  structStep caughtKIT [] (pyIn "MRData" data) fun hasMR =>
  if !hasMR then .ok [] else
  structStep caughtKIT [] (pySubscript data "MRData") fun mr =>
  structStep caughtKIT [] (pyDictGet mr "StandingsTable" (.obj [])) fun table =>
  structStep caughtKIT [] (pyDictGet table "StandingsLists" (.arr [])) fun lists =>
  if !pyTruthy lists then .ok [] else
  structStep caughtKIT [] (pyIndex0 lists) fun firstList =>
  structStep caughtKIT [] (pyDictGet firstList "DriverStandings" (.arr [])) fun ds =>
  structStep caughtKIT [] (pyIter ds) fun elems =>
  finishLoop caughtKIT (collectLoop parseDriverStanding elems [])

/-- The parse stage of `get_constructor_standings` (lines 383-411), under
`except (KeyError, IndexError, TypeError)`. -/
def constructorStandingsParse (data : Json) :
    Except PyExn (List ConstructorStanding) :=
  structStep caughtKIT [] (pyIn "MRData" data) fun hasMR =>
  if !hasMR then .ok [] else
  structStep caughtKIT [] (pySubscript data "MRData") fun mr =>
  structStep caughtKIT [] (pyDictGet mr "StandingsTable" (.obj [])) fun table =>
  structStep caughtKIT [] (pyDictGet table "StandingsLists" (.arr [])) fun lists =>
  if !pyTruthy lists then .ok [] else
  structStep caughtKIT [] (pyIndex0 lists) fun firstList =>
  structStep caughtKIT []
    (pyDictGet firstList "ConstructorStandings" (.arr [])) fun cs =>
  structStep caughtKIT [] (pyIter cs) fun elems =>
  finishLoop caughtKIT (collectLoop parseConstructorStanding elems [])

/-- The `if races:` block of `get_qualifying_results` (lines 446-461): the
per-race `try` parses the race then walks `QualifyingResults` with the
per-result `try`. -/
def qualifyingRaceBlock (raceData : Json) :
    List QualifyingResult × Option PyExn :=
  match parseRace raceData with
  | .error e => if caughtKVT e then ([], none) else ([], some e)
  | .ok race =>
    match pyDictGet raceData "QualifyingResults" (.arr []) with
    | .error e => if caughtKVT e then ([], none) else ([], some e)
    | .ok qualsJ =>
      match pyIter qualsJ with
      | .error e => if caughtKVT e then ([], none) else ([], some e)
      | .ok elems =>
        match collectLoop (parseQualifyingResult race) elems [] with
        | (acc, none) => (acc, none)
        | (acc, some e) => if caughtKVT e then (acc, none) else (acc, some e)

/-- The parse stage of `get_qualifying_results` (lines 436-466), under
`except (KeyError, TypeError)`. -/
def qualifyingResultsParse (data : Json) :
    Except PyExn (List QualifyingResult) :=
  structStep caughtKT [] (pyIn "MRData" data) fun hasMR =>
  if !hasMR then .ok [] else
  structStep caughtKT [] (pySubscript data "MRData") fun mr =>
  structStep caughtKT [] (pyDictGet mr "RaceTable" (.obj [])) fun raceTable =>
  structStep caughtKT [] (pyDictGet raceTable "Races" (.arr [])) fun races =>
  if !pyTruthy races then .ok [] else
  structStep caughtKT [] (pyIndex0 races) fun raceData =>
  finishLoop caughtKT (qualifyingRaceBlock raceData)

/-- One race of the `get_circuit_history` loop (lines 510-523): like the
season loop but only races with `race.season >= cutoff_year` contribute. -/
def circuitRaceStep (cutoff : Int) (raceData : Json) (acc : List RaceResult) :
    List RaceResult × Option PyExn :=
  match parseRace raceData with
  | .error e => if caughtKVT e then (acc, none) else (acc, some e)
  | .ok race =>
    if race.season < cutoff then (acc, none)
    else
      match pyDictGet raceData "Results" (.arr []) with
      | .error e => if caughtKVT e then (acc, none) else (acc, some e)
      | .ok resultsJ =>
        match pyIter resultsJ with
        | .error e => if caughtKVT e then (acc, none) else (acc, some e)
        | .ok elems =>
          match collectLoop (parseRaceResult race) elems acc with
          | (acc2, none) => (acc2, none)
          | (acc2, some e) => if caughtKVT e then (acc2, none) else (acc2, some e)

/-- The `for race_data in races` loop of `get_circuit_history`. -/
def circuitRacesLoop (cutoff : Int) : List Json → List RaceResult →
    List RaceResult × Option PyExn
  | [], acc => (acc, none)
  | rd :: rest, acc =>
    match circuitRaceStep cutoff rd acc with
    | (acc2, none) => circuitRacesLoop cutoff rest acc2
    | (acc2, some e) => (acc2, some e)

/-- The parse stage of `get_circuit_history` (lines 496-528), under
`except (KeyError, TypeError)`; `cutoff = datetime.now().year - years` is
passed in (`currentYear` models `datetime.now().year`). -/
def circuitHistoryParse (currentYear : Int) (years : Int) (data : Json) :
    Except PyExn (List RaceResult) :=
  structStep caughtKT [] (pyIn "MRData" data) fun hasMR =>
  if !hasMR then .ok [] else
  structStep caughtKT [] (pySubscript data "MRData") fun mr =>
  structStep caughtKT [] (pyDictGet mr "RaceTable" (.obj [])) fun raceTable =>
  structStep caughtKT [] (pyDictGet raceTable "Races" (.arr [])) fun races =>
  structStep caughtKT [] (pyIter races) fun raceList =>
  finishLoop caughtKT (circuitRacesLoop (currentYear - years) raceList [])

/-! ## Cached Fetch Orchestrator (`F1DataFetcher._get_cached_or_fetch`) -/

/-- `F1DataFetcher._get_cached_or_fetch`. The live request's outcome is the
`fetch` argument (a returned body or the exception `_make_request` raised
after its retries); `now` stands for the wall clock during the call. Cache
read errors are swallowed (`except Exception`) both at the fresh check and
at the stale fallback; only `requests.RequestException` from the fetch
triggers the stale fallback. -/
def getCachedOrFetch (fs : FileStore) (now : Int) (useCache : Bool)
    (key : String) (ttl : Int) (fetch : Except PyExn Json) :
    Except PyExn Json × FileStore :=
  let checked : Option Json × FileStore :=
    if useCache then
      match cacheGet fs now key false with
      | (.ok v, fs2) => (v, fs2)
      | (.error _, fs2) => (none, fs2)
    else (none, fs)
  match checked with
  | (some cached, fs2) => (.ok cached, fs2)
  | (none, fs2) =>
    match fetch with
    | .ok data =>
      (.ok data, if useCache then cacheSet fs2 now key data ttl else fs2)
    | .error e =>
      if isRequestException e then
        if useCache then
          match cacheGet fs2 now key true with
          | (.ok (some stale), fs3) => (.ok stale, fs3)
          | (.ok none, fs3) => (.error e, fs3)
          | (.error _, fs3) => (.error e, fs3)
        else (.error e, fs2)
      else (.error e, fs2)

/-! ## Data Fetcher resource operations -/

/-- `F1DataFetcher.CACHE_TTL_SEASON_RESULTS`. -/
def CACHE_TTL_SEASON_RESULTS : Int := 86400
/-- `F1DataFetcher.CACHE_TTL_STANDINGS`. -/
def CACHE_TTL_STANDINGS : Int := 21600
/-- `F1DataFetcher.CACHE_TTL_QUALIFYING`. -/
def CACHE_TTL_QUALIFYING : Int := 3600
/-- `F1DataFetcher.CACHE_TTL_CIRCUIT_HISTORY`. -/
def CACHE_TTL_CIRCUIT_HISTORY : Int := 604800
/-- `F1DataFetcher.CACHE_TTL_NEXT_RACE`. -/
def CACHE_TTL_NEXT_RACE : Int := 3600

/-- The `season_str` computation shared by the season-parameterised
operations: `str(season) if season else "current"`. -/
def seasonStr : Option Int → String
  | some s => toString s
  | none => "current"

/-- The list comprehension
`[f for f in required_fields if f not in race_data]` in `get_next_race`. -/
def missingFields (fields : List String) (j : Json) :
    Except PyExn (List String) :=
  match fields with
  | [] => .ok []
  | f :: rest => do
    let present ← pyIn f j
    let ms ← missingFields rest j
    return (if present then ms else f :: ms)

/-- The validate-and-parse stage of `get_next_race` (lines 226-248). The
`try` catches `(KeyError, IndexError, TypeError)` and re-raises them as
`ValueError("Invalid race data structure")`; the explicit `ValueError`s it
raises itself propagate unchanged. -/
def nextRaceParseBody (data : Json) : Except PyExn Race := do
  let hasMR ← pyIn "MRData" data
  if !hasMR then
    throw (.valueError "Invalid API response structure: missing MRData")
  let mr ← pySubscript data "MRData"
  let raceTable ← pyDictGet mr "RaceTable" (.obj [])
  let races ← pyDictGet raceTable "Races" (.arr [])
  if !pyTruthy races then
    throw (.valueError "No upcoming races found in API response")
  let raceData ← pyIndex0 races
  let missing ← missingFields ["season", "round", "raceName", "Circuit", "date"]
    raceData
  if !missing.isEmpty then
    throw (.valueError "Race data missing required fields")
  parseRace raceData

/-- `F1DataFetcher.get_next_race`. A `requests.RequestException` from the
fetch stage is re-raised as `ValueError("Unable to fetch next race
information")`; parse-stage `KeyError`/`IndexError`/`TypeError` become
`ValueError("Invalid race data structure")`. -/
def getNextRace (fs : FileStore) (now : Int) (useCache : Bool)
    (fetch : Except PyExn Json) : Except PyExn Race × FileStore :=
  match getCachedOrFetch fs now useCache "next_race" CACHE_TTL_NEXT_RACE fetch with
  | (.error e, fs2) =>
    if isRequestException e then
      (.error (.valueError "Unable to fetch next race information"), fs2)
    else (.error e, fs2)
  | (.ok data, fs2) =>
    match nextRaceParseBody data with
    | .ok race => (.ok race, fs2)
    | .error e =>
      if caughtKIT e then (.error (.valueError "Invalid race data structure"), fs2)
      else (.error e, fs2)

/-- `F1DataFetcher.get_current_season_results`: fetch failure yields `[]`. -/
def getCurrentSeasonResults (fs : FileStore) (now : Int) (useCache : Bool)
    (season : Option Int) (fetch : Except PyExn Json) :
    Except PyExn (List RaceResult) × FileStore :=
  match getCachedOrFetch fs now useCache ("season_results_" ++ seasonStr season)
      CACHE_TTL_SEASON_RESULTS fetch with
  | (.error e, fs2) =>
    if isRequestException e then (.ok [], fs2) else (.error e, fs2)
  | (.ok data, fs2) => (seasonResultsParse data, fs2)

/-- `F1DataFetcher.get_driver_standings`: fetch failure yields `[]`. -/
def getDriverStandings (fs : FileStore) (now : Int) (useCache : Bool)
    (season : Option Int) (fetch : Except PyExn Json) :
    Except PyExn (List DriverStanding) × FileStore :=
  match getCachedOrFetch fs now useCache ("driver_standings_" ++ seasonStr season)
      CACHE_TTL_STANDINGS fetch with
  | (.error e, fs2) =>
    if isRequestException e then (.ok [], fs2) else (.error e, fs2)
  | (.ok data, fs2) => (driverStandingsParse data, fs2)

/-- `F1DataFetcher.get_constructor_standings`: fetch failure yields `[]`. -/
def getConstructorStandings (fs : FileStore) (now : Int) (useCache : Bool)
    (season : Option Int) (fetch : Except PyExn Json) :
    Except PyExn (List ConstructorStanding) × FileStore :=
  match getCachedOrFetch fs now useCache
      ("constructor_standings_" ++ seasonStr season) CACHE_TTL_STANDINGS fetch with
  | (.error e, fs2) =>
    if isRequestException e then (.ok [], fs2) else (.error e, fs2)
  | (.ok data, fs2) => (constructorStandingsParse data, fs2)

/-- `F1DataFetcher.get_qualifying_results`: fetch failure yields `[]`. -/
def getQualifyingResults (fs : FileStore) (now : Int) (useCache : Bool)
    (season : Int) (roundNum : Int) (fetch : Except PyExn Json) :
    Except PyExn (List QualifyingResult) × FileStore :=
  match getCachedOrFetch fs now useCache
      ("qualifying_" ++ toString season ++ "_" ++ toString roundNum)
      CACHE_TTL_QUALIFYING fetch with
  | (.error e, fs2) =>
    if isRequestException e then (.ok [], fs2) else (.error e, fs2)
  | (.ok data, fs2) => (qualifyingResultsParse data, fs2)

/-- `F1DataFetcher.get_circuit_history`: fetch failure yields `[]`. -/
def getCircuitHistory (fs : FileStore) (now : Int) (useCache : Bool)
    (circuitId : String) (years : Int) (currentYear : Int)
    (fetch : Except PyExn Json) : Except PyExn (List RaceResult) × FileStore :=
  match getCachedOrFetch fs now useCache
      ("circuit_history_" ++ circuitId ++ "_" ++ toString years)
      CACHE_TTL_CIRCUIT_HISTORY fetch with
  | (.error e, fs2) =>
    if isRequestException e then (.ok [], fs2) else (.error e, fs2)
  | (.ok data, fs2) => (circuitHistoryParse currentYear years data, fs2)

/-! ## Vocabulary used by the claims -/

/-- A character that is already filesystem-safe: not a path separator and
not the reserved delimiter, the two characters `_get_cache_path`
replaces. -/
def safeChar (c : Char) : Bool := !(c == '/' || c == ':')

/-- The per-character action of `key.replace('/', '_').replace(':', '_')`. -/
def sanChar (c : Char) : Char :=
  if c = '/' then '_' else if c = ':' then '_' else c

/-- `k2` differs from `k1` only by already-safe characters in the same
positions: equal length, and at every position where the characters differ,
the `k2` character is safe. -/
def differsOnlyBySafe (k1 k2 : List Char) : Prop :=
  k1.length = k2.length ∧ ∀ p ∈ k1.zip k2, p.1 ≠ p.2 → safeChar p.2 = true

/-- `k2` never has an underscore where `k1` has a character that
sanitization rewrites to an underscore. -/
def noUnderscoreForSep (k1 k2 : List Char) : Prop :=
  ∀ p ∈ k1.zip k2, (p.1 = '/' ∨ p.1 = ':') → p.2 ≠ '_'

/-- A network answer with a success status whose body is not a JSON object
or lacks the top-level `MRData` envelope field. -/
def malformedSuccess : HttpResponse → Bool
  | .response status body =>
    decide (status < 400) &&
      (match body with
        | some (Json.obj fields) => !(fields.any fun kv => kv.1 == "MRData")
        | _ => true)
  | _ => false

/-- The provider envelope for a race-table resource, holding the given race
objects. -/
def raceTableEnvelope (races : List Json) : Json :=
  .obj [("MRData", .obj [("RaceTable", .obj [("Races", .arr races)])])]

/-- The provider envelope for a standings resource: one standings list
holding the given standing objects under the given key. -/
def standingsEnvelope (listKey : String) (standings : List Json) : Json :=
  .obj [("MRData", .obj [("StandingsTable", .obj [("StandingsLists",
    .arr [.obj [(listKey, .arr standings)]])])])]

/-! ## Sample provider data (used to instantiate theorems at concrete
inputs) -/

/-- A provider driver object without the optional `code` field. -/
def sampleDriverJson : Json :=
  .obj [("driverId", .str "max_verstappen"), ("givenName", .str "Max"),
    ("familyName", .str "Verstappen"), ("nationality", .str "Dutch")]

/-- The record `_parse_driver` builds from `sampleDriverJson`. -/
def sampleDriver : Driver :=
  ⟨.str "max_verstappen", .str "???", .str "Max", .str "Verstappen", .str "Dutch"⟩

/-- A provider constructor object. -/
def sampleConstructorJson : Json :=
  .obj [("constructorId", .str "red_bull"), ("name", .str "Red Bull"),
    ("nationality", .str "Austrian")]

/-- The record parsed from `sampleConstructorJson`. -/
def sampleConstructor : Constructor :=
  ⟨.str "red_bull", .str "Red Bull", .str "Austrian"⟩

/-- A provider circuit object. -/
def sampleCircuitJson : Json :=
  .obj [("circuitId", .str "monaco"), ("circuitName", .str "Circuit de Monaco"),
    ("Location", .obj [("locality", .str "Monte-Carlo"),
      ("country", .str "Monaco")])]

/-- The record parsed from `sampleCircuitJson`. -/
def sampleCircuit : Circuit :=
  ⟨.str "monaco", .str "Circuit de Monaco", .str "Monte-Carlo", .str "Monaco"⟩

/-- A provider race object carrying the given nested collection fields. -/
def sampleRaceJson (extra : List (String × Json)) : Json :=
  .obj ([("season", .str "2024"), ("round", .str "8"),
    ("raceName", .str "Monaco Grand Prix"), ("Circuit", sampleCircuitJson),
    ("date", .str "2024-05-26")] ++ extra)

/-- The record parsed from `sampleRaceJson`. -/
def sampleRace : Race :=
  ⟨2024, 8, .str "Monaco Grand Prix", sampleCircuit, ⟨2024, 5, 26, 0, 0, 0⟩⟩

/-- A well-formed provider race-result element. -/
def sampleResultJson (pos pts grid : String) : Json :=
  .obj [("Driver", sampleDriverJson), ("Constructor", sampleConstructorJson),
    ("position", .str pos), ("points", .str pts), ("grid", .str grid),
    ("laps", .str "78"), ("status", .str "Finished")]

/-- A race-result element missing the required `position` field. -/
def sampleBadResultJson : Json :=
  .obj [("Driver", sampleDriverJson), ("Constructor", sampleConstructorJson),
    ("points", .str "18"), ("grid", .str "2"), ("laps", .str "78"),
    ("status", .str "Finished")]

/-- The record parsed from `sampleResultJson`. -/
def sampleResult (pos : Int) (pts : Rat) (grid : Int) : RaceResult :=
  ⟨sampleRace, sampleDriver, sampleConstructor, pos, pts, grid, 78,
    .str "Finished"⟩

/-- A well-formed provider driver-standing element. -/
def sampleDStandingJson (pos pts wins : String) : Json :=
  .obj [("Driver", sampleDriverJson), ("Constructors", .arr [sampleConstructorJson]),
    ("position", .str pos), ("points", .str pts), ("wins", .str wins)]

/-- A driver-standing element missing the required `wins` field. -/
def sampleBadDStandingJson : Json :=
  .obj [("Driver", sampleDriverJson), ("Constructors", .arr [sampleConstructorJson]),
    ("position", .str "2"), ("points", .str "18")]

/-- The record parsed from `sampleDStandingJson`. -/
def sampleDStanding (pos : Int) (pts : Rat) (wins : Int) : DriverStanding :=
  ⟨sampleDriver, sampleConstructor, pos, pts, wins⟩

/-- A well-formed provider constructor-standing element. -/
def sampleCStandingJson (pos pts wins : String) : Json :=
  .obj [("Constructor", sampleConstructorJson), ("position", .str pos),
    ("points", .str pts), ("wins", .str wins)]

/-- A constructor-standing element missing the required `points` field. -/
def sampleBadCStandingJson : Json :=
  .obj [("Constructor", sampleConstructorJson), ("position", .str "2"),
    ("wins", .str "0")]

/-- The record parsed from `sampleCStandingJson`. -/
def sampleCStanding (pos : Int) (pts : Rat) (wins : Int) : ConstructorStanding :=
  ⟨sampleConstructor, pos, pts, wins⟩

/-- A well-formed provider qualifying-result element. -/
def sampleQualJson (pos : String) : Json :=
  .obj [("Driver", sampleDriverJson), ("Constructor", sampleConstructorJson),
    ("position", .str pos), ("Q1", .str "1:11.278")]

/-- A qualifying-result element missing the required `position` field. -/
def sampleBadQualJson : Json :=
  .obj [("Driver", sampleDriverJson), ("Constructor", sampleConstructorJson),
    ("Q1", .str "1:12.000")]

/-- The record parsed from `sampleQualJson`. -/
def sampleQual (pos : Int) : QualifyingResult :=
  ⟨sampleRace, sampleDriver, sampleConstructor, pos, some (.str "1:11.278"),
    none, none⟩

/-! ## Supporting lemmas -/

/-- Reading a key whose stored entry is the well-formed `cacheEntry` shape:
absent iff the strict read sees an elapsed expiry, the payload otherwise;
the store is untouched either way. -/
theorem cacheGet_entry (fs : FileStore) (t : Int) (key : String)
    (p : Json) (ca ea tl : Int) (ig : Bool)
    (hl : lookupFile fs (getCachePath key) = some (.json (cacheEntry p ca ea tl))) :
    cacheGet fs t key ig =
      (.ok (if ig = false ∧ ea < t then none else some p), fs) := by
  by_cases hig : ig = true
  · subst hig
    simp [cacheGet, hl, cacheEntry, cacheGetBody, pyIn, pySubscript,
      fromIsoTimestamp, bind, Except.bind, pure, Except.pure]
  · replace hig : ig = false := by revert hig; cases ig <;> simp
    subst hig
    by_cases ht : ea < t
    · simp [cacheGet, hl, cacheEntry, cacheGetBody, pyIn, pySubscript,
        fromIsoTimestamp, bind, Except.bind, pure, Except.pure, ht]
    · simp [cacheGet, hl, cacheEntry, cacheGetBody, pyIn, pySubscript,
        fromIsoTimestamp, bind, Except.bind, pure, Except.pure, ht]

/-- A `set` leaves the written entry visible at the key's path. -/
theorem lookupFile_cacheSet (fs : FileStore) (now : Int) (key : String)
    (p : Json) (ttl : Int) :
    lookupFile (cacheSet fs now key p ttl) (getCachePath key) =
      some (.json (cacheEntry p now (now + ttl) ttl)) := by
  simp [cacheSet, writeFile, lookupFile]

/-- The two `str.replace` passes of the sanitizer act as one character
map. -/
theorem sanitizeKey_eq_map (k : List Char) : sanitizeKey k = k.map sanChar := by
  unfold sanitizeKey
  rw [List.map_map]
  apply List.map_congr_left
  intro c _
  by_cases h1 : c = '/'
  · simp [h1, sanChar]
  · by_cases h2 : c = ':'
    · simp [h1, h2, sanChar]
    · simp [h1, h2, sanChar, Function.comp]

/-- The retry loop never loses attempts already made, and only appends to
the sleep log. -/
theorem makeRequestLoop_extends (rs : List HttpResponse) :
    ∀ (fuel rc : Nat) (l : Option PyExn) (s : List Nat),
      rc ≤ (makeRequestLoop rs fuel rc l s).attempts ∧
        ∃ t, (makeRequestLoop rs fuel rc l s).sleeps = s ++ t := by
  intro fuel
  induction fuel with
  | zero =>
    intro rc l s
    exact ⟨le_refl _, ⟨[], by simp [makeRequestLoop]⟩⟩
  | succ fuel ih =>
    intro rc l s
    have step : ∀ (e2 : PyExn) (add : List Nat),
        rc ≤ (makeRequestLoop rs fuel (rc + 1) (some e2) (s ++ add)).attempts ∧
          ∃ t, (makeRequestLoop rs fuel (rc + 1) (some e2) (s ++ add)).sleeps
            = s ++ t := by
      intro e2 add
      obtain ⟨ha, t, ht⟩ := ih (rc + 1) (some e2) (s ++ add)
      exact ⟨le_trans (Nat.le_succ rc) ha,
        ⟨add ++ t, by rw [ht, List.append_assoc]⟩⟩
    unfold makeRequestLoop
    cases hstep : attemptStep (attemptAt rs rc) with
    | ok j => exact ⟨Nat.le_succ rc, ⟨[], by simp⟩⟩
    | error e =>
      cases e with
      | httpError status =>
        by_cases hc : 400 ≤ status ∧ status < 500
        · simp only [hc, if_pos]
          exact ⟨Nat.le_succ rc, ⟨[], by simp⟩⟩
        · simp only [hc, if_neg, not_false_eq_true]
          exact step _ _
      | valueError m => exact step _ _
      | typeError m => exact step _ _
      | keyError m => exact step _ _
      | indexError m => exact step _ _
      | attributeError m => exact step _ _
      | timeout => exact step _ _
      | requestException m => exact step _ _

/-- With budget remaining, the loop performs at least one more attempt. -/
theorem makeRequestLoop_attempts_succ (rs : List HttpResponse)
    (fuel rc : Nat) (l : Option PyExn) (s : List Nat) (hf : 1 ≤ fuel) :
    rc + 1 ≤ (makeRequestLoop rs fuel rc l s).attempts := by
  cases fuel with
  | zero => omega
  | succ fuel =>
    have hrec : ∀ (e2 : PyExn) (add : List Nat),
        rc + 1 ≤ (makeRequestLoop rs fuel (rc + 1) (some e2) (s ++ add)).attempts :=
      fun e2 add => (makeRequestLoop_extends rs fuel (rc + 1) (some e2) (s ++ add)).1
    unfold makeRequestLoop
    cases hstep : attemptStep (attemptAt rs rc) with
    | ok j => simp
    | error e =>
      cases e with
      | httpError status =>
        by_cases hc : 400 ≤ status ∧ status < 500
        · simp [hc]
        · simp only [hc, if_neg, not_false_eq_true]
          exact hrec _ _
      | valueError m => exact hrec _ _
      | typeError m => exact hrec _ _
      | keyError m => exact hrec _ _
      | indexError m => exact hrec _ _
      | attributeError m => exact hrec _ _
      | timeout => exact hrec _ _
      | requestException m => exact hrec _ _

/-- A success-status answer with a malformed body makes the attempt body
raise the converted `requests.RequestException`. -/
theorem attemptStep_malformed (r : HttpResponse) (h : malformedSuccess r = true) :
    ∃ m, attemptStep r = .error (.requestException m) := by
  cases r with
  | timeout => simp [malformedSuccess] at h
  | connError => simp [malformedSuccess] at h
  | response status body =>
    cases body with
    | none =>
      have hs : status < 400 := by simpa [malformedSuccess] using h
      have hx : ¬(400 ≤ status ∧ status < 600) := by omega
      exact ⟨"Invalid API response format: not JSON", by simp [attemptStep, hx]⟩
    | some j =>
      cases j with
      | obj fields =>
        simp only [malformedSuccess, Bool.and_eq_true, decide_eq_true_eq,
          Bool.not_eq_true'] at h
        obtain ⟨hs, hb⟩ := h
        have hx : ¬(400 ≤ status ∧ status < 600) := by omega
        exact ⟨"Invalid API response format: API response missing MRData field",
          by simp [attemptStep, hx, hb]⟩
      | null =>
        have hs : status < 400 := by simpa [malformedSuccess] using h
        have hx : ¬(400 ≤ status ∧ status < 600) := by omega
        exact
          ⟨"Invalid API response format: API response is not a valid JSON object",
            by simp [attemptStep, hx]⟩
      | bool b =>
        have hs : status < 400 := by simpa [malformedSuccess] using h
        have hx : ¬(400 ≤ status ∧ status < 600) := by omega
        exact
          ⟨"Invalid API response format: API response is not a valid JSON object",
            by simp [attemptStep, hx]⟩
      | num n =>
        have hs : status < 400 := by simpa [malformedSuccess] using h
        have hx : ¬(400 ≤ status ∧ status < 600) := by omega
        exact
          ⟨"Invalid API response format: API response is not a valid JSON object",
            by simp [attemptStep, hx]⟩
      | str s =>
        have hs : status < 400 := by simpa [malformedSuccess] using h
        have hx : ¬(400 ≤ status ∧ status < 600) := by omega
        exact
          ⟨"Invalid API response format: API response is not a valid JSON object",
            by simp [attemptStep, hx]⟩
      | arr l =>
        have hs : status < 400 := by simpa [malformedSuccess] using h
        have hx : ¬(400 ≤ status ∧ status < 600) := by omega
        exact
          ⟨"Invalid API response format: API response is not a valid JSON object",
            by simp [attemptStep, hx]⟩

/-- Membership tests against the same value either all succeed or all raise:
the outcome shape depends only on the value's type. -/
theorem pyIn_ok_shape (f f2 : String) (j : Json) (b : Bool)
    (h : pyIn f j = .ok b) : ∃ b2, pyIn f2 j = .ok b2 := by
  cases j <;> simp [pyIn] at h ⊢

/-- A value genuinely missing one of the required fields makes the shared
required-fields loop raise its `ValueError`. -/
theorem checkRequired_fails (what : String) (fields : List String) (j : Json)
    (h : ∃ f ∈ fields, pyIn f j = .ok false) :
    ∃ m, checkRequired what fields j = .error (.valueError m) := by
  induction fields with
  | nil =>
    obtain ⟨f, hf, _⟩ := h
    exact absurd hf (List.not_mem_nil f)
  | cons g rest ih =>
    obtain ⟨f, hf, hfo⟩ := h
    obtain ⟨b, hb⟩ := pyIn_ok_shape f g j false hfo
    cases b with
    | false =>
      exact ⟨what ++ " missing required field: " ++ g,
        by simp [checkRequired, hb, bind, Except.bind]⟩
    | true =>
      rcases List.mem_cons.mp hf with h1 | h2
      · subst h1
        have hcontra := hfo.symm.trans hb
        simp at hcontra
      · obtain ⟨m, hm⟩ := ih ⟨f, h2, hfo⟩
        exact ⟨m, by simp [checkRequired, hb, hm, bind, Except.bind]⟩

/-- Missing required field makes `_parse_race_result` fail with its
`ValueError`. -/
theorem parseRaceResult_missing (race : Race) (j : Json)
    (h : ∃ f ∈ ["Driver", "Constructor", "position", "points", "grid", "laps",
      "status"], pyIn f j = .ok false) :
    ∃ m, parseRaceResult race j = .error (.valueError m) := by
  obtain ⟨m, hm⟩ := checkRequired_fails "Race result data" _ j h
  exact ⟨m, by simp [parseRaceResult, hm, bind, Except.bind]⟩

/-- Missing required field makes `_parse_driver_standing` fail with its
`ValueError`. -/
theorem parseDriverStanding_missing (j : Json)
    (h : ∃ f ∈ ["Driver", "Constructors", "position", "points", "wins"],
      pyIn f j = .ok false) :
    ∃ m, parseDriverStanding j = .error (.valueError m) := by
  obtain ⟨m, hm⟩ := checkRequired_fails "Driver standing data" _ j h
  exact ⟨m, by simp [parseDriverStanding, hm, bind, Except.bind]⟩

/-- Missing required field makes `_parse_constructor_standing` fail with its
`ValueError`. -/
theorem parseConstructorStanding_missing (j : Json)
    (h : ∃ f ∈ ["Constructor", "position", "points", "wins"],
      pyIn f j = .ok false) :
    ∃ m, parseConstructorStanding j = .error (.valueError m) := by
  obtain ⟨m, hm⟩ := checkRequired_fails "Constructor standing data" _ j h
  exact ⟨m, by simp [parseConstructorStanding, hm, bind, Except.bind]⟩

/-- Missing required field makes `_parse_qualifying_result` fail with its
`ValueError`. -/
theorem parseQualifyingResult_missing (race : Race) (j : Json)
    (h : ∃ f ∈ ["Driver", "Constructor", "position"], pyIn f j = .ok false) :
    ∃ m, parseQualifyingResult race j = .error (.valueError m) := by
  obtain ⟨m, hm⟩ := checkRequired_fails "Qualifying result data" _ j h
  exact ⟨m, by simp [parseQualifyingResult, hm, bind, Except.bind]⟩

/-- The per-element loop over a three-element collection whose middle
element fails with a caught `ValueError` keeps exactly the outer two. -/
theorem collectLoop_skip {α : Type} (parse : Json → Except PyExn α)
    (e1 e2 e3 : Json) (r1 r3 : α) (m : String) (acc : List α)
    (h1 : parse e1 = .ok r1) (h2 : parse e2 = .error (.valueError m))
    (h3 : parse e3 = .ok r3) :
    collectLoop parse [e1, e2, e3] acc = (acc ++ [r1, r3], none) := by
  simp [collectLoop, h1, h2, h3, caughtKVT]

/-- Season-results walk over one race whose three result elements have a
failing middle one. -/
theorem seasonResultsParse_skip (rd e1 e2 e3 : Json) (race : Race)
    (r1 r3 : RaceResult) (m : String)
    (hr : parseRace rd = .ok race)
    (hres : pyDictGet rd "Results" (.arr []) = .ok (.arr [e1, e2, e3]))
    (h1 : parseRaceResult race e1 = .ok r1)
    (h2 : parseRaceResult race e2 = .error (.valueError m))
    (h3 : parseRaceResult race e3 = .ok r3) :
    seasonResultsParse (raceTableEnvelope [rd]) = .ok [r1, r3] := by
  simp only [pyDictGet] at hres
  simp [seasonResultsParse, raceTableEnvelope, structStep, pyIn, pySubscript,
    pyDictGet, pyIter, finishLoop, seasonRacesLoop, seasonRaceStep, hr, hres,
    collectLoop, h1, h2, h3, caughtKVT, caughtKT]

/-- Driver-standings walk over three standing elements with a failing middle
one. -/
theorem driverStandingsParse_skip (e1 e2 e3 : Json) (r1 r3 : DriverStanding)
    (m : String)
    (h1 : parseDriverStanding e1 = .ok r1)
    (h2 : parseDriverStanding e2 = .error (.valueError m))
    (h3 : parseDriverStanding e3 = .ok r3) :
    driverStandingsParse (standingsEnvelope "DriverStandings" [e1, e2, e3]) =
      .ok [r1, r3] := by
  simp [driverStandingsParse, standingsEnvelope, structStep, pyIn, pySubscript,
    pyDictGet, pyTruthy, pyIndex0, pyIter, finishLoop, collectLoop,
    h1, h2, h3, caughtKVT]

/-- Constructor-standings walk over three standing elements with a failing
middle one. -/
theorem constructorStandingsParse_skip (e1 e2 e3 : Json)
    (r1 r3 : ConstructorStanding) (m : String)
    (h1 : parseConstructorStanding e1 = .ok r1)
    (h2 : parseConstructorStanding e2 = .error (.valueError m))
    (h3 : parseConstructorStanding e3 = .ok r3) :
    constructorStandingsParse
      (standingsEnvelope "ConstructorStandings" [e1, e2, e3]) = .ok [r1, r3] := by
  simp [constructorStandingsParse, standingsEnvelope, structStep, pyIn,
    pySubscript, pyDictGet, pyTruthy, pyIndex0, pyIter, finishLoop, collectLoop,
    h1, h2, h3, caughtKVT]

/-- Qualifying walk over one race whose three qualifying elements have a
failing middle one. -/
theorem qualifyingResultsParse_skip (rd e1 e2 e3 : Json) (race : Race)
    (r1 r3 : QualifyingResult) (m : String)
    (hr : parseRace rd = .ok race)
    (hres : pyDictGet rd "QualifyingResults" (.arr []) = .ok (.arr [e1, e2, e3]))
    (h1 : parseQualifyingResult race e1 = .ok r1)
    (h2 : parseQualifyingResult race e2 = .error (.valueError m))
    (h3 : parseQualifyingResult race e3 = .ok r3) :
    qualifyingResultsParse (raceTableEnvelope [rd]) = .ok [r1, r3] := by
  simp only [pyDictGet] at hres
  simp [qualifyingResultsParse, raceTableEnvelope, structStep, pyIn, pySubscript,
    pyDictGet, pyTruthy, pyIndex0, pyIter, finishLoop, qualifyingRaceBlock,
    hr, hres, collectLoop, h1, h2, h3, caughtKVT, caughtKT]

/-- Circuit-history walk over one in-range race whose three result elements
have a failing middle one. -/
theorem circuitHistoryParse_skip (currentYear years : Int) (rd e1 e2 e3 : Json)
    (race : Race) (r1 r3 : RaceResult) (m : String)
    (hr : parseRace rd = .ok race)
    (hcut : ¬ race.season < currentYear - years)
    (hres : pyDictGet rd "Results" (.arr []) = .ok (.arr [e1, e2, e3]))
    (h1 : parseRaceResult race e1 = .ok r1)
    (h2 : parseRaceResult race e2 = .error (.valueError m))
    (h3 : parseRaceResult race e3 = .ok r3) :
    circuitHistoryParse currentYear years (raceTableEnvelope [rd]) =
      .ok [r1, r3] := by
  simp only [pyDictGet] at hres
  simp [circuitHistoryParse, raceTableEnvelope, structStep, pyIn, pySubscript,
    pyDictGet, pyIter, finishLoop, circuitRacesLoop, circuitRaceStep, hr, hcut,
    hres, collectLoop, h1, h2, h3, caughtKVT, caughtKT]

/-- If the characters the sanitizer maps to `_` in `k1` never face an
underscore in `k2`, the character map separates distinct keys whose
differing positions hold safe `k2` characters. -/
theorem sanChar_map_ne : ∀ (k1 k2 : List Char), k1.length = k2.length →
    (∀ p ∈ k1.zip k2, p.1 ≠ p.2 → safeChar p.2 = true) →
    (∀ p ∈ k1.zip k2, (p.1 = '/' ∨ p.1 = ':') → p.2 ≠ '_') →
    k1 ≠ k2 → k1.map sanChar ≠ k2.map sanChar := by
  intro k1
  induction k1 with
  | nil =>
    intro k2 hlen _ _ hne
    cases k2 with
    | nil => exact absurd rfl hne
    | cons b u => simp at hlen
  | cons a t ih =>
    intro k2 hlen hsafe hnou hne
    cases k2 with
    | nil => simp at hlen
    | cons b u =>
      by_cases hab : a = b
      · subst hab
        have htne : t ≠ u := fun h => hne (by rw [h])
        have hrec := ih u (by simpa using hlen)
          (fun p hp => hsafe p (List.mem_cons_of_mem (a, a) hp))
          (fun p hp => hnou p (List.mem_cons_of_mem (a, a) hp)) htne
        simp only [List.map_cons]
        intro h
        injection h with h1 h2
        exact hrec h2
      · have hhead : safeChar b = true := hsafe (a, b) (List.mem_cons_self _ _) hab
        have hnb : (a = '/' ∨ a = ':') → b ≠ '_' :=
          fun h => hnou (a, b) (List.mem_cons_self _ _) h
        simp only [safeChar, Bool.not_eq_eq_eq_not, Bool.not_true, Bool.or_eq_false_iff]
          at hhead
        simp only [List.map_cons]
        intro h
        injection h with h1 h2
        have hsb : sanChar b = b := by
          have hb1 : ¬ b = '/' := by
            intro hx
            rw [hx] at hhead
            simp at hhead
          have hb2 : ¬ b = ':' := by
            intro hx
            rw [hx] at hhead
            simp at hhead
          simp [sanChar, hb1, hb2]
        rw [hsb] at h1
        by_cases ha1 : a = '/'
        · have hun : b ≠ '_' := hnb (Or.inl ha1)
          rw [ha1] at h1
          simp [sanChar] at h1
          exact hun h1.symm
        · by_cases ha2 : a = ':'
          · have hun : b ≠ '_' := hnb (Or.inr ha2)
            rw [ha2] at h1
            simp [sanChar] at h1
            exact hun h1.symm
          · rw [show sanChar a = a from by simp [sanChar, ha1, ha2]] at h1
            exact hab h1

/-! ## Claims -/

/-- C1, counterexample: the claim says a success-status response whose body
lacks the `MRData` envelope is not retried and raises after exactly one
attempt with no backoff sleep. On a transcript answering every attempt with
such a response, `_make_request` in fact performs 3 attempts and sleeps the
backoffs 2 and 4 — the converted `RequestException` raised at line 107 is
caught by the retry loop's own handler at line 129. -/
theorem C1_counterexample :
    malformedSuccess (.response 200 (some (.obj [("Status", .num 200)]))) = true ∧
    (makeRequest [.response 200 (some (.obj [("Status", .num 200)])),
      .response 200 (some (.obj [("Status", .num 200)])),
      .response 200 (some (.obj [("Status", .num 200)]))]).attempts = 3 ∧
    (makeRequest [.response 200 (some (.obj [("Status", .num 200)])),
      .response 200 (some (.obj [("Status", .num 200)])),
      .response 200 (some (.obj [("Status", .num 200)]))]).sleeps = [2, 4] ∧
    ¬((makeRequest [.response 200 (some (.obj [("Status", .num 200)])),
      .response 200 (some (.obj [("Status", .num 200)])),
      .response 200 (some (.obj [("Status", .num 200)]))]).attempts = 1 ∧
      (makeRequest [.response 200 (some (.obj [("Status", .num 200)])),
        .response 200 (some (.obj [("Status", .num 200)])),
        .response 200 (some (.obj [("Status", .num 200)]))]).sleeps = []) := by
  decide

/-- C1, amended: a success-status response whose body is not a JSON object
or lacks `MRData` is converted to a request failure and retried like a
transient failure: a second attempt always follows, preceded by a backoff
sleep of 2 seconds; and when every attempt returns such a response,
`_make_request` makes all 3 attempts, sleeps 2 and 4 seconds, and finally
raises the malformed-response `RequestException`. -/
theorem C1_theorem (r0 : HttpResponse) (h : malformedSuccess r0 = true) :
    (∀ rest : List HttpResponse,
      2 ≤ (makeRequest (r0 :: rest)).attempts ∧
        (makeRequest (r0 :: rest)).sleeps.head? = some 2) ∧
    ∃ m, makeRequest [r0, r0, r0] =
      ⟨.error (.requestException m), 3, [2, 4]⟩ := by
  obtain ⟨m, hm⟩ := attemptStep_malformed r0 h
  constructor
  · intro rest
    have h1 : makeRequest (r0 :: rest) =
        makeRequestLoop (r0 :: rest) 2 1 (some (.requestException m)) [2] := by
      simp [makeRequest, MAX_RETRIES, makeRequestLoop, attemptAt, hm]
    constructor
    · rw [h1]
      exact makeRequestLoop_attempts_succ (r0 :: rest) 2 1 _ _ (by omega)
    · obtain ⟨t2, ht2⟩ := (makeRequestLoop_extends (r0 :: rest) 2 1
        (some (.requestException m)) [2]).2
      rw [h1, ht2]
      rfl
  · exact ⟨m, by simp [makeRequest, MAX_RETRIES, makeRequestLoop, attemptAt, hm]⟩

/-- C1, witness: concrete malformed success response followed by a
connection error; the loop still reaches a second attempt after a
2-second backoff. -/
theorem C1_witness :
    2 ≤ (makeRequest [.response 200 (some (.obj [])),
      .connError]).attempts ∧
      (makeRequest [.response 200 (some (.obj [])),
        .connError]).sleeps.head? = some 2 :=
  (C1_theorem (.response 200 (some (.obj []))) (by decide)).1 [.connError]

/-- C2, counterexample: the claim says a decodable entry missing the `data`
field is deleted as a side effect of `get`. For the stored entry `{}` the
read returns absent but the store is unchanged and the file is still
present: line 76 of `cache.py` returns `None` without unlinking. -/
theorem C2_counterexample :
    pyIn "data" (Json.obj []) = .ok false ∧
    cacheGet [(getCachePath "k", FileContent.json (.obj []))] 0 "k" false =
      (.ok none, [(getCachePath "k", FileContent.json (.obj []))]) ∧
    lookupFile
      (cacheGet [(getCachePath "k", FileContent.json (.obj []))] 0 "k" false).2
      (getCachePath "k") = some (FileContent.json (.obj [])) :=
  ⟨rfl, rfl, rfl⟩

/-- C2, amended: an unreadable or undecodable persisted entry makes `get`
return absent, delete the file, and propagate nothing; a decodable entry
missing `data` or `expires_at` makes `get` return absent and propagate
nothing, but the entry is left in place — only the undecodable case is
deleted. -/
theorem C2_theorem (fs : FileStore) (now : Int) (key : String) (ig : Bool) :
    (∀ raw, lookupFile fs (getCachePath key) = some (.corrupt raw) →
      cacheGet fs now key ig = (.ok none, deleteFile fs (getCachePath key))) ∧
    (∀ entry, lookupFile fs (getCachePath key) = some (.json entry) →
      (pyIn "data" entry = .ok false ∨
        (pyIn "data" entry = .ok true ∧ pyIn "expires_at" entry = .ok false)) →
      cacheGet fs now key ig = (.ok none, fs)) := by
  constructor
  · intro raw hl
    simp [cacheGet, hl]
  · intro entry hl hmiss
    rcases hmiss with hd | ⟨hd, he⟩
    · simp [cacheGet, hl, cacheGetBody, hd, bind, Except.bind, pure, Except.pure]
    · simp [cacheGet, hl, cacheGetBody, hd, he, bind, Except.bind, pure,
        Except.pure]

/-- C2, witness: a corrupt file is purged and read as absent; a decodable
but field-less file is read as absent and kept. -/
theorem C2_witness :
    cacheGet [(getCachePath "k", FileContent.corrupt "not json")] 0 "k" false =
      (.ok none,
        deleteFile [(getCachePath "k", FileContent.corrupt "not json")]
          (getCachePath "k")) ∧
    cacheGet [(getCachePath "k", FileContent.json (.obj []))] 0 "k" false =
      (.ok none, [(getCachePath "k", FileContent.json (.obj []))]) :=
  ⟨(C2_theorem [(getCachePath "k", FileContent.corrupt "not json")] 0 "k"
      false).1 "not json" rfl,
   (C2_theorem [(getCachePath "k", FileContent.json (.obj []))] 0 "k"
      false).2 (.obj []) rfl (Or.inl rfl)⟩

/-- C3: with caching enabled and the live request raising a
`RequestException`, `_get_cached_or_fetch` returns the stored payload when a
well-formed entry (fresh or expired) exists for the key, and re-raises the
original failure unchanged when no entry exists. -/
theorem C3_theorem (fs : FileStore) (now : Int) (key : String)
    (ttl : Int) (e : PyExn) (he : isRequestException e = true) :
    (∀ p ca ea tl,
      lookupFile fs (getCachePath key) = some (.json (cacheEntry p ca ea tl)) →
      getCachedOrFetch fs now true key ttl (.error e) = (.ok p, fs)) ∧
    (lookupFile fs (getCachePath key) = none →
      getCachedOrFetch fs now true key ttl (.error e) = (.error e, fs)) := by
  constructor
  · intro p ca ea tl hl
    have hg0 := cacheGet_entry fs now key p ca ea tl false hl
    have hg1 := cacheGet_entry fs now key p ca ea tl true hl
    by_cases hlt : ea < now
    · simp only [getCachedOrFetch, hg0, hg1, he, hlt, and_true, if_true]
      simp [hlt, he]
    · simp only [getCachedOrFetch, hg0, hg1, he, hlt]
      simp [hlt, he]
  · intro hl
    simp [getCachedOrFetch, cacheGet, hl, he]

/-- C3, witness: an expired entry written at time 0 with TTL 5 is served in
degraded mode at time 99 when the fetch times out; with an empty store the
timeout is re-raised. -/
theorem C3_witness :
    getCachedOrFetch (cacheSet [] 0 "k" (.num 7) 5) 99 true "k" 5
      (.error .timeout) = (.ok (.num 7), cacheSet [] 0 "k" (.num 7) 5) ∧
    getCachedOrFetch [] 0 true "k" 5 (.error .timeout) =
      (.error .timeout, []) :=
  ⟨(C3_theorem (cacheSet [] 0 "k" (.num 7) 5) 99 "k" 5 .timeout rfl).1
      (.num 7) 0 5 5 rfl,
   (C3_theorem [] 0 "k" 5 .timeout rfl).2 rfl⟩

/-- C4, counterexample: the claim says sanitization never collides with a
key differing only by already-safe characters in the same positions. But
`a/b` and `a_b` are distinct, the former contains `/`, the latter differs
only at a position holding the safe character `_`, and both sanitize to the
same storage filename. -/
theorem C4_counterexample :
    ("a/b".toList ≠ "a_b".toList) ∧
      ('/' ∈ "a/b".toList ∨ ':' ∈ "a/b".toList) ∧
      differsOnlyBySafe "a/b".toList "a_b".toList ∧
      getCachePath "a/b" = getCachePath "a_b" :=
  ⟨by decide, by decide, ⟨by decide, by decide⟩, by decide⟩

/-- C4, amended: sanitization is collision-free for such key pairs provided
additionally that `k2` never holds an underscore at a position where `k1`
holds one of the replaced characters `/` or `:`. -/
theorem C4_theorem (k1 k2 : List Char) (hne : k1 ≠ k2)
    (hsep : '/' ∈ k1 ∨ ':' ∈ k1) (hdiff : differsOnlyBySafe k1 k2)
    (hnou : noUnderscoreForSep k1 k2) :
    sanitizeKey k1 ≠ sanitizeKey k2 := by
  rw [sanitizeKey_eq_map, sanitizeKey_eq_map]
  exact sanChar_map_ne k1 k2 hdiff.1 hdiff.2 hnou hne

/-- C4, witness: `a/b` and `acb` differ only at a safe, non-underscore
position and keep distinct sanitized names. -/
theorem C4_witness :
    sanitizeKey "a/b".toList ≠ sanitizeKey "acb".toList :=
  C4_theorem _ _ (by decide) (by decide) ⟨by decide, by decide⟩
    (by unfold noUnderscoreForSep; decide)

/-- C5: 5xx on the first two attempts and a well-formed success on the third
makes `_make_request` return the parsed body after exactly 3 attempts with
backoff sleeps 2 and 4 between them. -/
theorem C5_theorem (s1 s2 : Nat) (b1 b2 : Option Json)
    (fields : List (String × Json)) (rest : List HttpResponse)
    (h1 : 500 ≤ s1) (h2 : s1 < 600) (h3 : 500 ≤ s2) (h4 : s2 < 600)
    (hm : fields.any (fun kv => kv.1 == "MRData") = true) :
    makeRequest (.response s1 b1 :: .response s2 b2 ::
      .response 200 (some (.obj fields)) :: rest) =
      ⟨.ok (.obj fields), 3, [2, 4]⟩ := by
  have e1 : (400 ≤ s1 ∧ s1 < 600) := ⟨by omega, h2⟩
  have e2 : ¬ s1 < 500 := by omega
  have e3 : (400 ≤ s2 ∧ s2 < 600) := ⟨by omega, h4⟩
  have e4 : ¬ s2 < 500 := by omega
  simp [makeRequest, MAX_RETRIES, makeRequestLoop, attemptAt, attemptStep,
    e1, e2, e3, e4, hm]

/-- C5, witness: statuses 500 then 503 then a well-formed 200. -/
theorem C5_witness :
    makeRequest [.response 500 none, .response 503 none,
      .response 200 (some (.obj [("MRData", .null)]))] =
      ⟨.ok (.obj [("MRData", .null)]), 3, [2, 4]⟩ :=
  C5_theorem 500 503 none none [("MRData", .null)] []
    (by decide) (by decide) (by decide) (by decide) (by decide)

/-- C6: a 4xx status on the first attempt makes `_make_request` raise
immediately with exactly one attempt and no backoff sleep, whatever the
remaining transcript holds. -/
theorem C6_theorem (status : Nat) (body : Option Json)
    (rest : List HttpResponse) (h4 : 400 ≤ status) (h5 : status < 500) :
    makeRequest (.response status body :: rest) =
      ⟨.error (.httpError status), 1, []⟩ := by
  have h6 : (400 ≤ status ∧ status < 600) := ⟨h4, by omega⟩
  have h7 : (400 ≤ status ∧ status < 500) := ⟨h4, h5⟩
  simp [makeRequest, MAX_RETRIES, makeRequestLoop, attemptAt, attemptStep,
    h6, h7]

/-- C6, witness: a 404 answer. -/
theorem C6_witness :
    makeRequest [.response 404 none] = ⟨.error (.httpError 404), 1, []⟩ :=
  C6_theorem 404 none [] (by decide) (by decide)

/-- C7, counterexample: the claim says `get(k)` returns absent for every
`ttl <= 0`. With `ttl = 0` and the clock not yet advanced past the set
instant, `now > expires_at` is false and `get` returns the payload. -/
theorem C7_counterexample :
    (0 : Int) ≤ 0 ∧
    cacheGet (cacheSet [] 0 "k" (.num 7) 0) 0 "k" false =
      (.ok (some (.num 7)), cacheSet [] 0 "k" (.num 7) 0) :=
  ⟨le_refl 0, rfl⟩

/-- C7, amended: after `set(k, p, ttl)` at time `now`, a strict read is
absent whenever the clock passed `expires_at = now + ttl` (for `ttl <= 0`
this is any strictly later read); `ignore_ttl` reads always return `p`; the
entry stays physically present after expired reads; and a strict read
serves the payload iff the read time is at most `expires_at`. -/
theorem C7_theorem (fs : FileStore) (now : Int) (key : String) (p : Json)
    (ttl : Int) :
    (∀ t, now + ttl < t →
      cacheGet (cacheSet fs now key p ttl) t key false =
        (.ok none, cacheSet fs now key p ttl)) ∧
    (ttl ≤ 0 → ∀ t, now < t →
      cacheGet (cacheSet fs now key p ttl) t key false =
        (.ok none, cacheSet fs now key p ttl)) ∧
    (∀ t, cacheGet (cacheSet fs now key p ttl) t key true =
      (.ok (some p), cacheSet fs now key p ttl)) ∧
    (∀ t, lookupFile (cacheGet (cacheSet fs now key p ttl) t key false).2
      (getCachePath key) = some (.json (cacheEntry p now (now + ttl) ttl))) ∧
    (∀ t, (cacheGet (cacheSet fs now key p ttl) t key false).1 =
      .ok (some p) ↔ t ≤ now + ttl) := by
  have hg : ∀ (t : Int) (ig : Bool),
      cacheGet (cacheSet fs now key p ttl) t key ig =
        (.ok (if ig = false ∧ now + ttl < t then none else some p),
          cacheSet fs now key p ttl) :=
    fun t ig => cacheGet_entry (cacheSet fs now key p ttl) t key p now
      (now + ttl) ttl ig (lookupFile_cacheSet fs now key p ttl)
  refine ⟨?_, ?_, ?_, ?_, ?_⟩
  · intro t ht
    rw [hg]
    simp [ht]
  · intro h0 t ht
    have h2 : now + ttl < t := by omega
    rw [hg]
    simp [h2]
  · intro t
    rw [hg]
    simp
  · intro t
    rw [hg]
    exact lookupFile_cacheSet fs now key p ttl
  · intro t
    rw [hg]
    by_cases ht : t ≤ now + ttl
    · have h2 : ¬ now + ttl < t := by omega
      simp [h2, ht]
    · have h2 : now + ttl < t := by omega
      simp [h2, ht]

/-- C7, witness: entry written at time 0 with TTL 5: absent at time 9,
still served with `ignore_ttl` at time 9, served strictly at time 3. -/
theorem C7_witness :
    cacheGet (cacheSet [] 0 "k" (.num 7) 5) 9 "k" false =
      (.ok none, cacheSet [] 0 "k" (.num 7) 5) ∧
    cacheGet (cacheSet [] 0 "k" (.num 7) 5) 9 "k" true =
      (.ok (some (.num 7)), cacheSet [] 0 "k" (.num 7) 5) ∧
    ((cacheGet (cacheSet [] 0 "k" (.num 7) 5) 3 "k" false).1 =
      .ok (some (.num 7)) ↔ (3 : Int) ≤ 0 + 5) :=
  ⟨(C7_theorem [] 0 "k" (.num 7) 5).1 9 (by decide),
   (C7_theorem [] 0 "k" (.num 7) 5).2.2.1 9,
   (C7_theorem [] 0 "k" (.num 7) 5).2.2.2.2 3⟩

/-- C8: in every collection walk (season results, driver standings,
constructor standings, qualifying, circuit history), a three-element
collection whose middle element is missing one of its required fields
parses to exactly the two records of the valid elements; the malformed
element is skipped, nothing is raised. -/
theorem C8_theorem :
    (∀ (rd e1 e2 e3 : Json) (race : Race) (r1 r3 : RaceResult),
      parseRace rd = .ok race →
      pyDictGet rd "Results" (.arr []) = .ok (.arr [e1, e2, e3]) →
      parseRaceResult race e1 = .ok r1 →
      (∃ f ∈ ["Driver", "Constructor", "position", "points", "grid", "laps",
        "status"], pyIn f e2 = .ok false) →
      parseRaceResult race e3 = .ok r3 →
      seasonResultsParse (raceTableEnvelope [rd]) = .ok [r1, r3]) ∧
    (∀ (e1 e2 e3 : Json) (r1 r3 : DriverStanding),
      parseDriverStanding e1 = .ok r1 →
      (∃ f ∈ ["Driver", "Constructors", "position", "points", "wins"],
        pyIn f e2 = .ok false) →
      parseDriverStanding e3 = .ok r3 →
      driverStandingsParse (standingsEnvelope "DriverStandings" [e1, e2, e3]) =
        .ok [r1, r3]) ∧
    (∀ (e1 e2 e3 : Json) (r1 r3 : ConstructorStanding),
      parseConstructorStanding e1 = .ok r1 →
      (∃ f ∈ ["Constructor", "position", "points", "wins"],
        pyIn f e2 = .ok false) →
      parseConstructorStanding e3 = .ok r3 →
      constructorStandingsParse
        (standingsEnvelope "ConstructorStandings" [e1, e2, e3]) =
        .ok [r1, r3]) ∧
    (∀ (rd e1 e2 e3 : Json) (race : Race) (r1 r3 : QualifyingResult),
      parseRace rd = .ok race →
      pyDictGet rd "QualifyingResults" (.arr []) = .ok (.arr [e1, e2, e3]) →
      parseQualifyingResult race e1 = .ok r1 →
      (∃ f ∈ ["Driver", "Constructor", "position"], pyIn f e2 = .ok false) →
      parseQualifyingResult race e3 = .ok r3 →
      qualifyingResultsParse (raceTableEnvelope [rd]) = .ok [r1, r3]) ∧
    (∀ (currentYear years : Int) (rd e1 e2 e3 : Json) (race : Race)
      (r1 r3 : RaceResult),
      parseRace rd = .ok race →
      ¬ race.season < currentYear - years →
      pyDictGet rd "Results" (.arr []) = .ok (.arr [e1, e2, e3]) →
      parseRaceResult race e1 = .ok r1 →
      (∃ f ∈ ["Driver", "Constructor", "position", "points", "grid", "laps",
        "status"], pyIn f e2 = .ok false) →
      parseRaceResult race e3 = .ok r3 →
      circuitHistoryParse currentYear years (raceTableEnvelope [rd]) =
        .ok [r1, r3]) := by
  refine ⟨?_, ?_, ?_, ?_, ?_⟩
  · intro rd e1 e2 e3 race r1 r3 hr hres h1 hmiss h3
    obtain ⟨m, hm⟩ := parseRaceResult_missing race e2 hmiss
    exact seasonResultsParse_skip rd e1 e2 e3 race r1 r3 m hr hres h1 hm h3
  · intro e1 e2 e3 r1 r3 h1 hmiss h3
    obtain ⟨m, hm⟩ := parseDriverStanding_missing e2 hmiss
    exact driverStandingsParse_skip e1 e2 e3 r1 r3 m h1 hm h3
  · intro e1 e2 e3 r1 r3 h1 hmiss h3
    obtain ⟨m, hm⟩ := parseConstructorStanding_missing e2 hmiss
    exact constructorStandingsParse_skip e1 e2 e3 r1 r3 m h1 hm h3
  · intro rd e1 e2 e3 race r1 r3 hr hres h1 hmiss h3
    obtain ⟨m, hm⟩ := parseQualifyingResult_missing race e2 hmiss
    exact qualifyingResultsParse_skip rd e1 e2 e3 race r1 r3 m hr hres h1 hm h3
  · intro currentYear years rd e1 e2 e3 race r1 r3 hr hcut hres h1 hmiss h3
    obtain ⟨m, hm⟩ := parseRaceResult_missing race e2 hmiss
    exact circuitHistoryParse_skip currentYear years rd e1 e2 e3 race r1 r3 m
      hr hcut hres h1 hm h3

/-- C8, witness: concrete three-element collections for all five walks,
each with the middle element missing a required field. -/
theorem C8_witness :
    seasonResultsParse (raceTableEnvelope [sampleRaceJson [("Results",
      .arr [sampleResultJson "1" "25" "1", sampleBadResultJson,
        sampleResultJson "3" "15" "3"])]]) =
      .ok [sampleResult 1 25 1, sampleResult 3 15 3] ∧
    driverStandingsParse (standingsEnvelope "DriverStandings"
      [sampleDStandingJson "1" "25" "1", sampleBadDStandingJson,
        sampleDStandingJson "3" "15" "0"]) =
      .ok [sampleDStanding 1 25 1, sampleDStanding 3 15 0] ∧
    constructorStandingsParse (standingsEnvelope "ConstructorStandings"
      [sampleCStandingJson "1" "40" "1", sampleBadCStandingJson,
        sampleCStandingJson "3" "20" "0"]) =
      .ok [sampleCStanding 1 40 1, sampleCStanding 3 20 0] ∧
    qualifyingResultsParse (raceTableEnvelope [sampleRaceJson
      [("QualifyingResults", .arr [sampleQualJson "1", sampleBadQualJson,
        sampleQualJson "3"])]]) = .ok [sampleQual 1, sampleQual 3] ∧
    circuitHistoryParse 2025 5 (raceTableEnvelope [sampleRaceJson [("Results",
      .arr [sampleResultJson "1" "25" "1", sampleBadResultJson,
        sampleResultJson "3" "15" "3"])]]) =
      .ok [sampleResult 1 25 1, sampleResult 3 15 3] :=
  ⟨C8_theorem.1 _ _ _ _ sampleRace (sampleResult 1 25 1) (sampleResult 3 15 3)
      rfl rfl rfl ⟨"position", by decide, rfl⟩ rfl,
   C8_theorem.2.1 _ _ _ (sampleDStanding 1 25 1) (sampleDStanding 3 15 0)
      rfl ⟨"wins", by decide, rfl⟩ rfl,
   C8_theorem.2.2.1 _ _ _ (sampleCStanding 1 40 1) (sampleCStanding 3 20 0)
      rfl ⟨"points", by decide, rfl⟩ rfl,
   C8_theorem.2.2.2.1 _ _ _ _ sampleRace (sampleQual 1) (sampleQual 3)
      rfl rfl rfl ⟨"position", by decide, rfl⟩ rfl,
   C8_theorem.2.2.2.2 2025 5 _ _ _ _ sampleRace (sampleResult 1 25 1)
      (sampleResult 3 15 3) rfl (by decide) rfl rfl
      ⟨"position", by decide, rfl⟩ rfl⟩

/-- C9: failure policy by resource criticality. When the fetch stage fails
with a `RequestException`, `get_next_race` raises a `ValueError`, and it
also raises when the returned race collection is empty; season results and
both standings operations instead return the empty list without raising. -/
theorem C9_theorem (fs fs2 : FileStore) (now : Int) (uc : Bool)
    (season : Option Int) (fetch : Except PyExn Json) (e : PyExn)
    (he : isRequestException e = true) :
    (getCachedOrFetch fs now uc "next_race" CACHE_TTL_NEXT_RACE fetch =
        (.error e, fs2) →
      getNextRace fs now uc fetch =
        (.error (.valueError "Unable to fetch next race information"), fs2)) ∧
    (getCachedOrFetch fs now uc "next_race" CACHE_TTL_NEXT_RACE fetch =
        (.ok (raceTableEnvelope []), fs2) →
      getNextRace fs now uc fetch =
        (.error (.valueError "No upcoming races found in API response"), fs2)) ∧
    (getCachedOrFetch fs now uc ("season_results_" ++ seasonStr season)
        CACHE_TTL_SEASON_RESULTS fetch = (.error e, fs2) →
      getCurrentSeasonResults fs now uc season fetch = (.ok [], fs2)) ∧
    (getCachedOrFetch fs now uc ("driver_standings_" ++ seasonStr season)
        CACHE_TTL_STANDINGS fetch = (.error e, fs2) →
      getDriverStandings fs now uc season fetch = (.ok [], fs2)) ∧
    (getCachedOrFetch fs now uc ("constructor_standings_" ++ seasonStr season)
        CACHE_TTL_STANDINGS fetch = (.error e, fs2) →
      getConstructorStandings fs now uc season fetch = (.ok [], fs2)) := by
  refine ⟨?_, ?_, ?_, ?_, ?_⟩
  · intro h
    simp [getNextRace, h, he]
  · intro h
    simp [getNextRace, h,
      show nextRaceParseBody (raceTableEnvelope []) =
        .error (.valueError "No upcoming races found in API response") from rfl,
      caughtKIT]
  · intro h
    simp [getCurrentSeasonResults, h, he]
  · intro h
    simp [getDriverStandings, h, he]
  · intro h
    simp [getConstructorStandings, h, he]

/-- C9, witness: cache-disabled fetch timeout and an empty race table. -/
theorem C9_witness :
    getNextRace [] 0 false (.error .timeout) =
      (.error (.valueError "Unable to fetch next race information"), []) ∧
    getNextRace [] 0 false (.ok (raceTableEnvelope [])) =
      (.error (.valueError "No upcoming races found in API response"), []) ∧
    getDriverStandings [] 0 false none (.error .timeout) = (.ok [], []) :=
  ⟨(C9_theorem [] [] 0 false none (.error .timeout) .timeout rfl).1 rfl,
   (C9_theorem [] [] 0 false none (.ok (raceTableEnvelope [])) .timeout
      rfl).2.1 rfl,
   (C9_theorem [] [] 0 false none (.error .timeout) .timeout rfl).2.2.2.1 rfl⟩

/-- C10: a driver payload carrying `driverId`, `givenName`, `familyName`
and `nationality` but no `code` field parses successfully into a record
whose code is the literal `"???"`. -/
theorem C10_theorem (fields : List (String × Json)) (p1 p2 p3 p4 : String × Json)
    (f1 : fields.find? (fun kv => kv.1 == "driverId") = some p1)
    (f2 : fields.find? (fun kv => kv.1 == "givenName") = some p2)
    (f3 : fields.find? (fun kv => kv.1 == "familyName") = some p3)
    (f4 : fields.find? (fun kv => kv.1 == "nationality") = some p4)
    (fc : fields.find? (fun kv => kv.1 == "code") = none) :
    parseDriver (.obj fields) = .ok ⟨p1.2, .str "???", p2.2, p3.2, p4.2⟩ := by
  have a1 : fields.any (fun kv => kv.1 == "driverId") = true := by
    have h := List.find?_some f1
    exact List.any_eq_true.mpr ⟨p1, List.mem_of_find?_eq_some f1, h⟩
  have a2 : fields.any (fun kv => kv.1 == "givenName") = true := by
    have h := List.find?_some f2
    exact List.any_eq_true.mpr ⟨p2, List.mem_of_find?_eq_some f2, h⟩
  have a3 : fields.any (fun kv => kv.1 == "familyName") = true := by
    have h := List.find?_some f3
    exact List.any_eq_true.mpr ⟨p3, List.mem_of_find?_eq_some f3, h⟩
  have a4 : fields.any (fun kv => kv.1 == "nationality") = true := by
    have h := List.find?_some f4
    exact List.any_eq_true.mpr ⟨p4, List.mem_of_find?_eq_some f4, h⟩
  simp [parseDriver, checkRequired, pyIn, pySubscript, pyDictGet,
    a1, a2, a3, a4, f1, f2, f3, f4, fc, bind, Except.bind, pure, Except.pure]

/-- C10, witness: the sample driver payload without a `code` field parses
with code `"???"`. -/
theorem C10_witness : parseDriver sampleDriverJson = .ok sampleDriver :=
  C10_theorem
    [("driverId", .str "max_verstappen"), ("givenName", .str "Max"),
      ("familyName", .str "Verstappen"), ("nationality", .str "Dutch")]
    ("driverId", .str "max_verstappen") ("givenName", .str "Max")
    ("familyName", .str "Verstappen") ("nationality", .str "Dutch")
    rfl rfl rfl rfl rfl

end F1
